import Mathlib

/-!
Shallow embedding of the idle-detection and cost-control loop of
`automated_scaling_tests.py` (`get_metric`, lines 164-195, and
`collect_realtime_metrics`, lines 198-265), together with proofs settling the
specification claims about it.

Modelling conventions:
* CloudWatch average values and the idleness threshold are rationals (the code
  only compares them with `<` and `max`, so the order structure is all that
  matters).
* Timestamps and the fetch-window boundary `aws_start`/`aws_stop` are integers
  counting seconds; `timedelta(hours=1)` becomes `+ 3600`.
* The CloudWatch backend, fleet-membership query (`get_instance_ids`),
  termination outcomes (`conn.terminate_instances`), and the per-cycle wall
  clock are oracles collected in an `Env`.
* A `BotoServerError` from the backend is `Except.error ()`; the `RuntimeError`
  that `get_metric` raises on giving up, and the `TypeError` raised by
  `for datum in None` when `get_metric` returns `None`, are tracked explicitly
  in the results of the embedded functions.
-/

namespace ScalingTests

/-- One CloudWatch datapoint as returned by `get_metric_statistics`: the
dictionary fields `datum['Average']` and `datum['Timestamp']`. -/
structure Sample where
  average : ℚ
  timestamp : Int
deriving DecidableEq

/-- One row appended to a metric's CSV file (line 240):
`(instance_id, metric, datum['Average'], datum['Timestamp'])`. -/
structure Row where
  instanceId : String
  metric : String
  average : ℚ
  timestamp : Int
deriving DecidableEq

/-- The observable outcome of one call of `get_metric`:
* `result`: `.ok (some data)` when the fetched statistics are returned,
  `.ok none` when the function falls through to `return metric_object` with
  `metric_object` still `None` (the retry path), `.error ()` when the
  `RuntimeError` of line 193 escapes to the caller;
* `delays`: the successive `time.sleep(backoff)` durations performed;
* `requests`: how many backend requests were issued. -/
structure FetchOutcome where
  result : Except Unit (Option (List Sample))
  delays : List ℕ
  requests : ℕ

/-- Structural-recursion worker for `get_metric`. The Python function (lines
164-195) recurses with `backoff + 10` under the guard `backoff <= 60`, so from
backoff `b` it uses exactly `(70 - b) / 10 + 1` stack frames; `fuel` carries
that bound to make the recursion structural. The `fuel = 0` branch is never
reached from `getMetric`, which always supplies adequate fuel. -/
def getMetricGo (backend : ℕ → Except Unit (List Sample)) :
    ℕ → ℕ → ℕ → FetchOutcome
  | 0, _, _ => ⟨.error (), [], 0⟩
  | fuel + 1, attempt, backoff =>
    match backend attempt with
    | .ok data => ⟨.ok (some data), [], 1⟩
    | .error _ =>
      if backoff ≤ 60 then
        let r := getMetricGo backend fuel (attempt + 1) (backoff + 10)
        ⟨match r.result with
          | .ok _ => .ok none
          | .error e => .error e,
         backoff :: r.delays, r.requests + 1⟩
      else ⟨.error (), [], 1⟩

/-- Number of stack frames `get_metric` can use starting from a given backoff:
the guard `backoff <= 60` admits at most `(70 - backoff) / 10` recursive calls
below the current frame. -/
def retryFuel (backoff : ℕ) : ℕ := (70 - backoff) / 10 + 1

/-- Embedding of `get_metric` (lines 164-195). `backend attempt` is the result
of the `attempt`-th `cw.get_metric_statistics` request of this call chain,
`backoff` is the keyword argument (default 30 at every call site). The local
`metric_object` starts as `None`; a successful request overwrites it; on
`BotoServerError` with `backoff <= 60` the function sleeps and recurses,
*discarding* the recursive result, and then still executes
`return metric_object` (i.e. returns `None`); with `backoff > 60` it raises
`RuntimeError`, which no enclosing frame catches. -/
def getMetric (backend : ℕ → Except Unit (List Sample))
    (attempt backoff : ℕ) : FetchOutcome :=
  getMetricGo backend (retryFuel backoff) attempt backoff

/-- Unfolding `getMetric` when the backend request succeeds (the `try` body
completes): the statistics are returned, no sleeps, one request. -/
theorem getMetric_ok_step (backend : ℕ → Except Unit (List Sample))
    (attempt backoff : ℕ) (d : List Sample) (h : backend attempt = .ok d) :
    getMetric backend attempt backoff = ⟨.ok (some d), [], 1⟩ := by
  unfold getMetric retryFuel
  simp only [getMetricGo, h]

/-- Unfolding `getMetric` on `BotoServerError` while the budget remains
(`backoff <= 60`): sleep `backoff`, recurse with `backoff + 10`, discard the
recursive value, and return `None` if the recursion returned at all, else let
its `RuntimeError` propagate. -/
theorem getMetric_error_step (backend : ℕ → Except Unit (List Sample))
    (attempt backoff : ℕ) (h : backend attempt = .error ())
    (hb : backoff ≤ 60) :
    getMetric backend attempt backoff =
      ⟨match (getMetric backend (attempt + 1) (backoff + 10)).result with
        | .ok _ => .ok none
        | .error e => .error e,
       backoff :: (getMetric backend (attempt + 1) (backoff + 10)).delays,
       (getMetric backend (attempt + 1) (backoff + 10)).requests + 1⟩ := by
  have hf : (70 - backoff) / 10 = (70 - (backoff + 10)) / 10 + 1 := by omega
  unfold getMetric retryFuel
  simp only [getMetricGo, h, if_pos hb, hf]

/-- Unfolding `getMetric` on `BotoServerError` with the budget exhausted
(`backoff > 60`): `raise RuntimeError` (line 193). -/
theorem getMetric_giveup_step (backend : ℕ → Except Unit (List Sample))
    (attempt backoff : ℕ) (h : backend attempt = .error ())
    (hb : ¬ backoff ≤ 60) :
    getMetric backend attempt backoff = ⟨.error (), [], 1⟩ := by
  unfold getMetric retryFuel
  simp only [getMetricGo, h, if_neg hb]

/-- The metric whose datapoints drive the kill decision (line 249). -/
def cpuMetric : String := "AWS/EC2/CPUUtilization"

/-- The `list_of_metrics` list of lines 209-216. -/
def listOfMetrics : List String :=
  ["AWS/EC2/CPUUtilization", "CGCloud/MemUsage",
   "CGCloud/DiskUsage_mnt_ephemeral", "CGCloud/DiskUsage_root",
   "AWS/EC2/NetworkIn", "AWS/EC2/NetworkOut",
   "AWS/EC2/DiskWriteOps", "AWS/EC2/DiskReadOps"]

/-- Python's `l[-n:]`: the last `n` elements of `l`, or the whole list when it
is shorter than `n`. Line 250 uses `n = 3`. -/
def lastN (n : ℕ) (l : List α) : List α := l.drop (l.length - n)

/-- CPython's built-in `max` on the non-empty sequence `a :: l`: scan left to
right, replacing the running maximum exactly when a strictly greater item is
seen. -/
def pyMax (a : ℚ) (l : List ℚ) : ℚ :=
  l.foldl (fun acc x => if acc < x then x else acc) a

/-- The scan step of `pyMax` agrees with the mathematical binary maximum. -/
theorem pyMax_step_eq_max (a b : ℚ) : (if a < b then b else a) = max a b := by
  rcases lt_or_le a b with h | h
  · rw [if_pos h, max_eq_right h.le]
  · rw [if_neg (not_lt.2 h), max_eq_left h]

/-- The idleness evaluation of lines 250-254 applied to the ordered sequence of
CPU-utilization values: take the last 3 values; if exactly 3 are present and
their maximum (Python `max`) is strictly below the threshold, the instance is
flagged. -/
def isIdle (values : List ℚ) (threshold : ℚ) : Bool :=
  let averages := lastN 3 values
  if averages.length = 3 then
    match averages with
    | [] => false
    | a :: rest => decide (pyMax a rest < threshold)
  else false

/-- Stable insertion of a row into a timestamp-sorted list: the row goes after
every already-present row with an equal or smaller timestamp. -/
def insertRow (d : Row) : List Row → List Row
  | [] => [d]
  | e :: es => if e.timestamp ≤ d.timestamp then e :: insertRow d es else d :: e :: es

/-- Embedding of `sorted(datapoints, key=lambda x: x[3])` (line 250). Python's `sorted` is a
stable sort by the timestamp key; left-to-right stable insertion computes the
same list. -/
def sortRows (l : List Row) : List Row :=
  l.foldl (fun acc d => insertRow d acc) []

/-- Lines 249-254 for one instance: sort the cycle's CPU datapoints by
timestamp, project the averages, and evaluate idleness. -/
def cpuKill (datapoints : List Row) (threshold : ℚ) : Bool :=
  isIdle ((sortRows datapoints).map Row.average) threshold

/-- Lines 244-247: `if datapoints:` append the rows to the metric's CSV file.
The store is modelled as the concatenation of all appended rows (each row
carries its metric name, so the per-metric files are the per-metric
restrictions of this list). No read, no merge, no deduplication happens. -/
def persistBatch (store : List Row) (datapoints : List Row) : List Row :=
  if datapoints.isEmpty then store else store ++ datapoints

/-- The external collaborators of `collect_realtime_metrics`:
* `fetch metric inst start stop attempt` — the `attempt`-th
  `cw.get_metric_statistics` response for that (metric, instance, window) call
  chain (`.error ()` is a `BotoServerError`);
* `termFails inst cyc` — whether `conn.terminate_instances` for `inst` in
  cycle `cyc` raises (`EC2ResponseError`/`BotoServerError`, lines 257-260);
* `membership k` — the result of the `k`-th `get_instance_ids` call
  (line 224 is call 0, line 265 makes the following calls);
* `elapsed cyc` — the wall-clock seconds `time.time() - metric_collection_time`
  measured at the sleep of line 264 in cycle `cyc`;
* `threshold` — the `threshold` parameter (default 0.5, line 198). -/
structure Env where
  fetch : String → String → Int → Int → ℕ → Except Unit (List Sample)
  termFails : String → ℕ → Bool
  membership : ℕ → List String
  elapsed : ℕ → ℚ
  threshold : ℚ

/-- Result of the inner `for metric in list_of_metrics` loop (lines 234-254)
for one instance. `crashed` records an uncaught `TypeError` from
`for datum in metric_object` when `get_metric` returned `None` (only
`RuntimeError` is caught, line 241). -/
structure MetricLoopResult where
  store : List Row
  kill : Bool
  cpuData : List Row
  fetched : List (String × String)
  crashed : Bool

/-- The datapoints obtained for one (instance, metric) pair in one window:
`.ok rows` when `datapoints` ends up holding `rows` (empty when the
`RuntimeError` of exhausted retries was caught and `pass`ed), `.error ()` when
`get_metric` returned `None` and line 239 raises an uncaught `TypeError`. -/
def fetchDatapoints (env : Env) (metric inst : String) (start stop : Int) :
    Except Unit (List Row) :=
  match (getMetric (fun n => env.fetch metric inst start stop n) 0 30).result with
  | .error _ => .ok []
  | .ok none => .error ()
  | .ok (some samples) =>
      .ok (samples.map fun d => ⟨inst, metric, d.average, d.timestamp⟩)

/-- The `for metric in list_of_metrics` loop (lines 234-254) over a remaining
metric list, threading the store, the `kill` flag, the CPU datapoints last seen
and the trace of initiated (instance, metric) fetches. -/
def processMetrics (env : Env) (inst : String) (start stop : Int) :
    List String → List Row → Bool → List Row → List (String × String) →
    MetricLoopResult
  | [], store, kill, cpuD, fetched => ⟨store, kill, cpuD, fetched, false⟩
  | m :: ms, store, kill, cpuD, fetched =>
    match fetchDatapoints env m inst start stop with
    | .error _ => ⟨store, kill, cpuD, fetched ++ [(inst, m)], true⟩
    | .ok dps =>
      processMetrics env inst start stop ms
        (persistBatch store dps)
        (if m = cpuMetric then kill || cpuKill dps env.threshold else kill)
        (if m = cpuMetric then dps else cpuD)
        (fetched ++ [(inst, m)])

/-- Result of the outer `for instance_id in tqdm(ids)` loop (lines 232-260):
accumulated store, fetch trace, per-instance CPU datapoints, instances for
which termination was attempted, instances whose termination call raised, and
whether an uncaught exception aborted the loop. -/
structure InstLoopResult where
  store : List Row
  fetched : List (String × String)
  cpuData : List (String × List Row)
  termAttempts : List String
  termFailures : List String
  crashed : Bool

/-- The `for instance_id in tqdm(ids)` loop (lines 232-260). Each instance
resets `kill = False`, runs the metric loop, and if flagged calls
`conn.terminate_instances`; a raised `EC2ResponseError`/`BotoServerError` is
caught and only logged (lines 259-260). -/
def processInstances (env : Env) (cyc : ℕ) (start stop : Int) :
    List String → List Row → List (String × String) →
    List (String × List Row) → List String → List String → InstLoopResult
  | [], store, fetched, cpuData, terms, termFailures =>
    ⟨store, fetched, cpuData, terms, termFailures, false⟩
  | inst :: rest, store, fetched, cpuData, terms, termFailures =>
    let r := processMetrics env inst start stop listOfMetrics store false [] fetched
    if r.crashed then
      ⟨r.store, r.fetched, cpuData, terms, termFailures, true⟩
    else
      processInstances env cyc start stop rest r.store r.fetched
        (cpuData ++ [(inst, r.cpuData)])
        (if r.kill then terms ++ [inst] else terms)
        (if r.kill && env.termFails inst cyc then termFailures ++ [inst]
         else termFailures)

/-- The loop-carried state of `collect_realtime_metrics`: `aws_start` (the
start of the next fetch window) and the rows written to the CSV files so far. -/
structure LoopState where
  watermark : Int
  store : List Row
deriving DecidableEq

/-- One full execution of the `while ids` body (lines 230-264) on a non-empty
`ids`. The fetch window is `[aws_start, aws_start + 3600]` (line 237); after
the instance loop, line 262 sets `aws_start = aws_stop` unconditionally and
line 264 sleeps `3600 - elapsed`. On a crash the thread dies by exception, so
`watermark` keeps its old value and no sleep occurs (`sleep` is then a dummy
0); both fields are meaningful only when `crashed = false`. -/
structure CycleResult where
  crashed : Bool
  watermark : Int
  store : List Row
  fetched : List (String × String)
  cpuData : List (String × List Row)
  termAttempts : List String
  termFailures : List String
  sleep : ℚ

/-- Run one collection cycle (the body of `while ids`, lines 230-264). -/
def runCycle (env : Env) (cyc : ℕ) (ids : List String) (st : LoopState) :
    CycleResult :=
  let stop := st.watermark + 3600
  let r := processInstances env cyc st.watermark stop ids st.store [] [] [] []
  { crashed := r.crashed
    watermark := if r.crashed then st.watermark else stop
    store := r.store
    fetched := r.fetched
    cpuData := r.cpuData
    termAttempts := r.termAttempts
    termFailures := r.termFailures
    sleep := if r.crashed then 0 else 3600 - env.elapsed cyc }

/-- Final outcome of the polling loop: ran out of modelling fuel, died on an
uncaught exception during cycle `cycle`, or exited the `while` normally after
`cycles` completed cycles. -/
inductive RunOutcome where
  | fuelOut : RunOutcome
  | crashed : ℕ → RunOutcome
  | halted : ℕ → LoopState → RunOutcome
deriving DecidableEq

/-- The polling loop (lines 224-265): `ids = get_instance_ids(...)`;
`while ids:` run a cycle, then re-read membership. `k` is both the index of the
next membership read and the number of cycles completed so far; `fuel` only
bounds the modelled unrolling. -/
def runLoop (env : Env) : ℕ → ℕ → LoopState → RunOutcome
  | 0, _, _ => .fuelOut
  | fuel + 1, k, st =>
    if (env.membership k).isEmpty then .halted k st
    else
      if (runCycle env k (env.membership k) st).crashed then .crashed k
      else runLoop env fuel (k + 1)
        ⟨(runCycle env k (env.membership k) st).watermark,
         (runCycle env k (env.membership k) st).store⟩

/-- Claim C1: the idleness evaluation, applied to the ordered sequence of
CPU-utilization values fetched for one instance with N = 3 and threshold 0.5,
returns false for every sequence with fewer than 3 values; for every sequence
with at least 3 values it returns true iff the maximum of the last 3 values is
strictly below the threshold; concretely it returns true on [0.1, 0.1, 0.1]
and false on [0.1, 0.6, 0.1]. -/
theorem claim_c1 :
    (∀ l : List ℚ, l.length < 3 → isIdle l (mkRat 1 2) = false) ∧
    (∀ (pre : List ℚ) (a b c t : ℚ),
        isIdle (pre ++ [a, b, c]) t = true ↔ max (max a b) c < t) ∧
    isIdle [mkRat 1 10, mkRat 1 10, mkRat 1 10] (mkRat 1 2) = true ∧
    isIdle [mkRat 1 10, mkRat 6 10, mkRat 1 10] (mkRat 1 2) = false := by
  refine ⟨?_, ?_, by decide, by decide⟩
  · intro l hl
    have h0 : l.length - 3 = 0 := by omega
    simp only [isIdle, lastN, h0, List.drop_zero]
    rw [if_neg (by omega)]
  · intro pre a b c t
    have hlen : (pre ++ [a, b, c]).length - 3 = pre.length := by
      simp [List.length_append]
    simp only [isIdle, lastN, hlen, List.drop_left]
    simp [pyMax, List.foldl_cons, List.foldl_nil, pyMax_step_eq_max]

/-- Witness for C1 at concrete inputs: a length-1 history is not idle, and for
a length-4 history the verdict is exactly the comparison of the maximum of the
last three values with the threshold. -/
theorem claim_c1_witness :
    isIdle [mkRat 2 10] (mkRat 1 2) = false ∧
    (isIdle ([mkRat 9 10] ++ [mkRat 1 10, mkRat 1 10, mkRat 1 10])
        (mkRat 1 2) = true ↔
      max (max (mkRat 1 10) (mkRat 1 10)) (mkRat 1 10) < mkRat 1 2) :=
  ⟨claim_c1.1 [mkRat 2 10] (by decide),
   claim_c1.2.1 [mkRat 9 10] (mkRat 1 10) (mkRat 1 10) (mkRat 1 10)
     (mkRat 1 2)⟩

/-- A CloudWatch backend for which every request fails with
`BotoServerError`. -/
def failBackend : ℕ → Except Unit (List Sample) := fun _ => .error ()

/-- A CloudWatch backend whose first request fails with `BotoServerError` and
whose later requests succeed. -/
def retryBackend : ℕ → Except Unit (List Sample) :=
  fun n => if n = 0 then .error () else .ok [⟨1, 0⟩]

/-- Claim C4: on a transient backend error the metric fetch retries with an
initial delay of 30 seconds increased by 10 seconds per retry, and after a
bounded retry budget (here 4 retries, delays 30, 40, 50, 60) it stops retrying
and surfaces a failure to the caller rather than retrying indefinitely: at most
5 backend requests are ever made, the sleep delays are always the matching
prefix of [30, 40, 50, 60], and when every request fails the call raises after
exactly those four delays. -/
theorem claim_c4 (backend : ℕ → Except Unit (List Sample)) (a : ℕ) :
    (getMetric backend a 30).requests ≤ 5 ∧
    (getMetric backend a 30).delays =
      List.take ((getMetric backend a 30).requests - 1) [30, 40, 50, 60] ∧
    ((∀ n, backend n = .error ()) →
      (getMetric backend a 30).result = .error () ∧
      (getMetric backend a 30).delays = [30, 40, 50, 60]) := by
  rcases h0 : backend a with u0 | d0
  case ok =>
    have e0 := getMetric_ok_step backend a 30 d0 h0
    rw [e0]
    refine ⟨by norm_num, by norm_num, fun hAll => ?_⟩
    rw [hAll a] at h0; exact Except.noConfusion h0
  case error =>
    cases u0
    have e0 := getMetric_error_step backend a 30 h0 (by omega)
    rcases h1 : backend (a + 1) with u1 | d1
    case ok =>
      have e1 := getMetric_ok_step backend (a + 1) 40 d1 h1
      rw [e1] at e0; rw [e0]
      refine ⟨by norm_num, by norm_num, fun hAll => ?_⟩
      rw [hAll (a + 1)] at h1; exact Except.noConfusion h1
    case error =>
      cases u1
      have e1 := getMetric_error_step backend (a + 1) 40 h1 (by omega)
      rcases h2 : backend (a + 1 + 1) with u2 | d2
      case ok =>
        have e2 := getMetric_ok_step backend (a + 1 + 1) 50 d2 h2
        rw [e2] at e1; rw [e1] at e0; rw [e0]
        refine ⟨by norm_num, by norm_num, fun hAll => ?_⟩
        rw [hAll (a + 1 + 1)] at h2; exact Except.noConfusion h2
      case error =>
        cases u2
        have e2 := getMetric_error_step backend (a + 1 + 1) 50 h2 (by omega)
        rcases h3 : backend (a + 1 + 1 + 1) with u3 | d3
        case ok =>
          have e3 := getMetric_ok_step backend (a + 1 + 1 + 1) 60 d3 h3
          rw [e3] at e2; rw [e2] at e1; rw [e1] at e0; rw [e0]
          refine ⟨by norm_num, by norm_num, fun hAll => ?_⟩
          rw [hAll (a + 1 + 1 + 1)] at h3; exact Except.noConfusion h3
        case error =>
          cases u3
          have e3 := getMetric_error_step backend (a + 1 + 1 + 1) 60 h3 (by omega)
          rcases h4 : backend (a + 1 + 1 + 1 + 1) with u4 | d4
          case ok =>
            have e4 := getMetric_ok_step backend (a + 1 + 1 + 1 + 1) 70 d4 h4
            rw [e4] at e3; rw [e3] at e2; rw [e2] at e1; rw [e1] at e0; rw [e0]
            refine ⟨by norm_num, by norm_num, fun hAll => ?_⟩
            rw [hAll (a + 1 + 1 + 1 + 1)] at h4; exact Except.noConfusion h4
          case error =>
            cases u4
            have e4 := getMetric_giveup_step backend (a + 1 + 1 + 1 + 1) 70 h4
              (by omega)
            rw [e4] at e3; rw [e3] at e2; rw [e2] at e1; rw [e1] at e0; rw [e0]
            exact ⟨by norm_num, by norm_num, fun _ => ⟨rfl, rfl⟩⟩

/-- Witness for C4: with every backend request failing, the fetch raises after
sleeping exactly 30, 40, 50 and 60 seconds. -/
theorem claim_c4_witness :
    (getMetric failBackend 0 30).result = .error () ∧
    (getMetric failBackend 0 30).delays = [30, 40, 50, 60] :=
  (claim_c4 failBackend 0).2.2 (fun _ => rfl)

/-- Claim C9: for every call of `get_metric` whose first backend request
raises a transient error while the backoff budget is not yet exhausted
(`backoff <= 60`), the function never returns fetched data: if the recursive
retry chain returns at all the call returns `None` (the retry's result is
discarded, lines 190 and 195), and if the retry chain raises the call
raises. -/
theorem claim_c9 (backend : ℕ → Except Unit (List Sample)) (a b : ℕ)
    (h : backend a = .error ()) (hb : b ≤ 60) :
    (∀ d : List Sample, (getMetric backend a b).result ≠ .ok (some d)) ∧
    (∀ x, (getMetric backend (a + 1) (b + 10)).result = .ok x →
      (getMetric backend a b).result = .ok none) ∧
    ((getMetric backend (a + 1) (b + 10)).result = .error () →
      (getMetric backend a b).result = .error ()) := by
  rw [getMetric_error_step backend a b h hb]
  refine ⟨fun d hd => ?_, fun x hx => ?_, fun he => ?_⟩
  · rcases hr : (getMetric backend (a + 1) (b + 10)).result with e | v <;>
      simp [hr] at hd
  · simp [hx]
  · simp [he]

/-- Witness for C9: first request fails, the retry succeeds with real data,
yet the call returns `None`. -/
theorem claim_c9_witness :
    (getMetric retryBackend 0 30).result = .ok none :=
  (claim_c9 retryBackend 0 30 rfl (by omega)).2.1 (some [⟨1, 0⟩]) rfl

/-- A sample row used to exercise the store. -/
def rowC6 : Row := ⟨"i-1", "AWS/EC2/CPUUtilization", mkRat 1 10, 0⟩

/-- Counterexample to C6: the store append of lines 244-247 is a plain
`csv.writer.writerows` on a file opened in append mode; appending the batch
`[rowC6]` twice yields two rows with the same (instance, timestamp) pair, so
appending is not idempotent and nothing is deduplicated by timestamp. -/
theorem claim_c6_counterexample :
    persistBatch (persistBatch [] [rowC6]) [rowC6] = [rowC6, rowC6] ∧
    ¬ ((persistBatch (persistBatch [] [rowC6]) [rowC6]).map
        (fun r => (r.instanceId, r.timestamp))).Nodup :=
  ⟨rfl, by decide⟩

/-- Claim C6 (amended): appending a batch of samples to the per-metric store
appends every row of the batch unconditionally; appending a batch that was
already appended stores its rows twice — each row's multiplicity grows by the
batch multiplicity on every append, with no deduplication by (instance,
timestamp). -/
theorem claim_c6 (store batch : List Row) :
    persistBatch store batch = store ++ batch ∧
    ∀ r : Row, (persistBatch (persistBatch store batch) batch).count r =
      store.count r + 2 * batch.count r := by
  have h : ∀ s b : List Row, persistBatch s b = s ++ b := by
    intro s b
    rcases b with _ | ⟨x, xs⟩
    · simp [persistBatch]
    · simp [persistBatch]
  refine ⟨h store batch, fun r => ?_⟩
  rw [h, h, List.count_append, List.count_append]
  ring

/-- An environment in which every backend request fails with
`BotoServerError`, so every metric fetch of every cycle exhausts its retries
and yields no samples. -/
def envC3 : Env :=
  { fetch := fun _ _ _ _ _ => .error ()
    termFails := fun _ _ => false
    membership := fun k => if k = 0 then ["i-A"] else []
    elapsed := fun _ => 0
    threshold := mkRat 1 2 }

/-- Counterexample to C3: a cycle in which every fetch exhausts its retries
(and hence yields no samples) still advances the watermark — line 262 runs
`aws_start = aws_stop` unconditionally — so the watermark is not left
unchanged when a fetch yields no samples or exhausts its retries. -/
theorem claim_c3_counterexample :
    (runCycle envC3 0 ["i-A"] ⟨0, []⟩).crashed = false ∧
    (runCycle envC3 0 ["i-A"] ⟨0, []⟩).store = [] ∧
    (runCycle envC3 0 ["i-A"] ⟨0, []⟩).watermark = 3600 ∧
    (3600 : Int) ≠ 0 :=
  ⟨rfl, rfl, rfl, by decide⟩

/-- Claim C3 (amended): the watermark never moves backward, but it is not
frozen on unsuccessful fetches: every cycle that completes advances it by
exactly one hour (the fetch-window width), whether or not any fetch succeeded
or returned samples. -/
theorem claim_c3 (env : Env) (cyc : ℕ) (ids : List String) (st : LoopState) :
    st.watermark ≤ (runCycle env cyc ids st).watermark ∧
    ((runCycle env cyc ids st).crashed = false →
      (runCycle env cyc ids st).watermark = st.watermark + 3600) := by
  unfold runCycle
  cases hc : (processInstances env cyc st.watermark (st.watermark + 3600) ids
      st.store [] [] [] []).crashed <;> simp [hc]

/-- Witness for C3: a completed cycle starting at watermark 5 ends at
watermark 5 + 3600. -/
theorem claim_c3_witness :
    (runCycle envC3 0 ["i-A"] ⟨5, []⟩).watermark = 5 + 3600 :=
  (claim_c3 envC3 0 ["i-A"] ⟨5, []⟩).2 rfl

/-- An environment whose cycle takes 4000 seconds of wall clock, longer than
the 3600-second collection interval, with benign fetches. -/
def envC7 : Env :=
  { fetch := fun _ _ _ _ _ => .ok [⟨1, 0⟩]
    termFails := fun _ _ => false
    membership := fun _ => ["i-A"]
    elapsed := fun _ => 4000
    threshold := mkRat 1 2 }

/-- Counterexample to C7: when a cycle's elapsed time (4000 s) exceeds the
interval (3600 s), the loop does not proceed immediately (a sleep of 0) and
logs no overrun: line 264 computes `3600 - elapsed = -400` and passes that
negative duration straight to `time.sleep`. -/
theorem claim_c7_counterexample :
    (runCycle envC7 0 ["i-A"] ⟨0, []⟩).crashed = false ∧
    (runCycle envC7 0 ["i-A"] ⟨0, []⟩).sleep = 3600 - 4000 ∧
    (runCycle envC7 0 ["i-A"] ⟨0, []⟩).sleep < 0 ∧
    ¬ (runCycle envC7 0 ["i-A"] ⟨0, []⟩).sleep = 0 := by
  have hs : (runCycle envC7 0 ["i-A"] ⟨0, []⟩).sleep = 3600 - 4000 := rfl
  refine ⟨rfl, hs, ?_, ?_⟩
  · rw [hs]; norm_num
  · rw [hs]; norm_num

/-- Claim C7 (amended): at the end of every completed cycle the loop sleeps
for the collection interval (3600 s) minus the elapsed collection time; when
the elapsed time exceeds the interval this duration is negative and is passed
to `time.sleep` unclamped — there is no overrun log and no immediate
continuation branch. -/
theorem claim_c7 (env : Env) (cyc : ℕ) (ids : List String) (st : LoopState)
    (h : (runCycle env cyc ids st).crashed = false) :
    (runCycle env cyc ids st).sleep = 3600 - env.elapsed cyc ∧
    (3600 < env.elapsed cyc → (runCycle env cyc ids st).sleep < 0) := by
  have hs : (runCycle env cyc ids st).sleep = 3600 - env.elapsed cyc := by
    unfold runCycle at h ⊢
    simp only at h ⊢
    rw [h]
    simp
  exact ⟨hs, fun hlt => by rw [hs]; linarith⟩

/-- Witness for C7: in the overrunning environment the computed sleep duration
is `3600 - 4000`, which is negative. -/
theorem claim_c7_witness :
    (runCycle envC7 0 ["i-A"] ⟨0, []⟩).sleep = 3600 - envC7.elapsed 0 ∧
    (runCycle envC7 0 ["i-A"] ⟨0, []⟩).sleep < 0 :=
  ⟨(claim_c7 envC7 0 ["i-A"] ⟨0, []⟩ rfl).1,
   (claim_c7 envC7 0 ["i-A"] ⟨0, []⟩ rfl).2 (by norm_num [envC7])⟩

/-- An environment in which instance `i-A`'s CPU fetch fails transiently on
its first backend request and succeeds on the retry, while every other request
succeeds; the fleet is `[i-A, i-B]`. -/
def envC2 : Env :=
  { fetch := fun m inst _ _ attempt =>
      if inst = "i-A" ∧ m = cpuMetric ∧ attempt = 0 then .error ()
      else .ok [⟨mkRat 1 10, 0⟩]
    termFails := fun _ _ => false
    membership := fun k => if k = 0 then ["i-A", "i-B"] else []
    elapsed := fun _ => 0
    threshold := mkRat 1 2 }

/-- Claim C2, evaluated at the failing input: a transient backend error on
instance `i-A`'s CPU fetch whose retry succeeds makes `get_metric` return
`None` (its recursive result is discarded), so line 239 iterates `None` and
raises an uncaught `TypeError`: the cycle aborts with only `i-A`'s first fetch
initiated — instance `i-B` is never fetched, evaluated, or terminated in that
cycle, contradicting the claimed per-instance fetch isolation. -/
theorem claim_c2 :
    (runCycle envC2 0 ["i-A", "i-B"] ⟨0, []⟩).crashed = true ∧
    (runCycle envC2 0 ["i-A", "i-B"] ⟨0, []⟩).fetched = [("i-A", cpuMetric)] ∧
    (runCycle envC2 0 ["i-A", "i-B"] ⟨0, []⟩).termAttempts = [] ∧
    (runCycle envC2 0 ["i-A", "i-B"] ⟨0, []⟩).store = [] :=
  ⟨rfl, rfl, rfl, rfl⟩

/-- Does the loop outcome consist of exactly one completed cycle followed by a
clean halt? -/
def haltsAfterOneCycle : RunOutcome → Bool
  | .halted 1 _ => true
  | _ => false

/-- An environment whose membership query answers `[i-A]` then `[]`, and whose
every fetch fails transiently once and then succeeds — triggering the
`get_metric`-returns-`None` crash during the first cycle. -/
def envC5 : Env :=
  { fetch := fun _ _ _ _ attempt => if attempt = 0 then .error () else .ok []
    termFails := fun _ _ => false
    membership := fun k => if k = 0 then ["i-A"] else []
    elapsed := fun _ => 0
    threshold := mkRat 1 2 }

/-- Counterexample to C5: a run whose fleet-membership query returns a
non-empty list first and the empty list on its second call, but whose first
cycle dies on the uncaught `TypeError` caused by a transient fetch error
followed by a successful retry: the loop does not perform one full collection
cycle and halt — it aborts mid-cycle. -/
theorem claim_c5_counterexample :
    envC5.membership 0 ≠ [] ∧ envC5.membership 1 = [] ∧
    runLoop envC5 2 0 ⟨0, []⟩ = .crashed 0 ∧
    haltsAfterOneCycle (runLoop envC5 2 0 ⟨0, []⟩) = false :=
  ⟨by decide, rfl, rfl, rfl⟩

/-- Claim C5 (amended): for every run in which the fleet-membership query
returns a non-empty list first and the empty list on its second call, and
whose single cycle completes without the `get_metric`-returns-`None` crash,
the loop performs exactly one collection cycle and then terminates. -/
theorem claim_c5 (env : Env) (st : LoopState) (fuel : ℕ)
    (h0 : env.membership 0 ≠ []) (h1 : env.membership 1 = [])
    (hf : 2 ≤ fuel)
    (hc : (runCycle env 0 (env.membership 0) st).crashed = false) :
    runLoop env fuel 0 st =
      .halted 1 ⟨(runCycle env 0 (env.membership 0) st).watermark,
                 (runCycle env 0 (env.membership 0) st).store⟩ := by
  obtain ⟨f, rfl⟩ : ∃ f, fuel = f + 1 + 1 := ⟨fuel - 2, by omega⟩
  have hne : ¬ (env.membership 0).isEmpty = true := by
    simpa [List.isEmpty_iff] using h0
  rw [runLoop, if_neg hne, if_neg (by rw [hc]; exact Bool.false_ne_true),
    runLoop, if_pos (by rw [h1]; rfl)]

/-- A benign environment whose membership query answers `[i-A]` then `[]` and
whose fetches all succeed immediately. -/
def envC5w : Env :=
  { fetch := fun _ _ _ _ _ => .ok []
    termFails := fun _ _ => false
    membership := fun k => if k = 0 then ["i-A"] else []
    elapsed := fun _ => 0
    threshold := mkRat 1 2 }

/-- Witness for C5: in the benign two-answer environment the loop halts
cleanly after exactly one cycle. -/
theorem claim_c5_witness :
    runLoop envC5w 2 0 ⟨0, []⟩ =
      .halted 1 ⟨(runCycle envC5w 0 (envC5w.membership 0) ⟨0, []⟩).watermark,
                 (runCycle envC5w 0 (envC5w.membership 0) ⟨0, []⟩).store⟩ :=
  claim_c5 envC5w ⟨0, []⟩ 2 (by decide) rfl (by omega) rfl

/-- The metric loop never consults termination outcomes: replacing the
termination oracle changes nothing in its result. -/
theorem processMetrics_termFails (env : Env) (tf : String → ℕ → Bool)
    (inst : String) (start stop : Int) (ms : List String) :
    ∀ (store : List Row) (kill : Bool) (cpuD : List Row)
      (fetched : List (String × String)),
      processMetrics { env with termFails := tf } inst start stop ms
          store kill cpuD fetched =
        processMetrics env inst start stop ms store kill cpuD fetched := by
  induction ms with
  | nil => intro store kill cpuD fetched; rfl
  | cons m rest ih =>
    intro store kill cpuD fetched
    simp only [processMetrics]
    have hf : fetchDatapoints { env with termFails := tf } m inst start stop =
        fetchDatapoints env m inst start stop := rfl
    rw [hf]
    cases hd : fetchDatapoints env m inst start stop with
    | error e => rfl
    | ok dps => exact ih _ _ _ _

/-- The instance loop agrees on every component except the termination-failure
log when the termination oracle is replaced: the same rows are stored, the
same fetches happen, the same instances are flagged and have termination
attempted, and the cycle crashes in exactly the same circumstances. -/
theorem processInstances_termFails (env : Env) (tf : String → ℕ → Bool)
    (cyc : ℕ) (start stop : Int) :
    ∀ (ids : List String) (store : List Row)
      (fetched : List (String × String)) (cpuData : List (String × List Row))
      (terms termFa termFb : List String),
      (processInstances { env with termFails := tf } cyc start stop ids
          store fetched cpuData terms termFa).store =
        (processInstances env cyc start stop ids store fetched cpuData terms
          termFb).store ∧
      (processInstances { env with termFails := tf } cyc start stop ids
          store fetched cpuData terms termFa).fetched =
        (processInstances env cyc start stop ids store fetched cpuData terms
          termFb).fetched ∧
      (processInstances { env with termFails := tf } cyc start stop ids
          store fetched cpuData terms termFa).cpuData =
        (processInstances env cyc start stop ids store fetched cpuData terms
          termFb).cpuData ∧
      (processInstances { env with termFails := tf } cyc start stop ids
          store fetched cpuData terms termFa).termAttempts =
        (processInstances env cyc start stop ids store fetched cpuData terms
          termFb).termAttempts ∧
      (processInstances { env with termFails := tf } cyc start stop ids
          store fetched cpuData terms termFa).crashed =
        (processInstances env cyc start stop ids store fetched cpuData terms
          termFb).crashed := by
  intro ids
  induction ids with
  | nil =>
    intro store fetched cpuData terms termFa termFb
    exact ⟨rfl, rfl, rfl, rfl, rfl⟩
  | cons inst rest ih =>
    intro store fetched cpuData terms termFa termFb
    simp only [processInstances,
      processMetrics_termFails env tf inst start stop listOfMetrics]
    cases hc : (processMetrics env inst start stop listOfMetrics store false []
        fetched).crashed
    · simp only [hc, Bool.false_eq_true, if_false]
      exact ih _ _ _ _ _ _
    · simp [hc]

/-- Claim C8: a failed termination call is non-fatal and invisible to the rest
of the run. For any termination oracle (in particular one that fails for some
instance X mid-cycle), the cycle stores the same rows, initiates the same
fetches, flags the same instances, attempts termination of the same instances
(so instances flagged after X are still terminated), does not crash because of
the failure, keeps the same watermark and pacing, and the continuation of the
loop — whose next working set is re-read from fleet membership, which still
lists the non-terminated X — is identical to a run whose terminations all
succeed; only the logged failure list differs. -/
theorem claim_c8 (env : Env) (tf : String → ℕ → Bool) (cyc : ℕ)
    (ids : List String) (st : LoopState) (fuel k : ℕ) :
    (runCycle { env with termFails := tf } cyc ids st).crashed
        = (runCycle env cyc ids st).crashed ∧
    (runCycle { env with termFails := tf } cyc ids st).termAttempts
        = (runCycle env cyc ids st).termAttempts ∧
    (runCycle { env with termFails := tf } cyc ids st).store
        = (runCycle env cyc ids st).store ∧
    (runCycle { env with termFails := tf } cyc ids st).fetched
        = (runCycle env cyc ids st).fetched ∧
    (runCycle { env with termFails := tf } cyc ids st).cpuData
        = (runCycle env cyc ids st).cpuData ∧
    (runCycle { env with termFails := tf } cyc ids st).watermark
        = (runCycle env cyc ids st).watermark ∧
    (runCycle { env with termFails := tf } cyc ids st).sleep
        = (runCycle env cyc ids st).sleep ∧
    runLoop { env with termFails := tf } fuel k st = runLoop env fuel k st := by
  have hcyc : ∀ (cyc : ℕ) (ids : List String) (st : LoopState),
      (runCycle { env with termFails := tf } cyc ids st).crashed
          = (runCycle env cyc ids st).crashed ∧
      (runCycle { env with termFails := tf } cyc ids st).termAttempts
          = (runCycle env cyc ids st).termAttempts ∧
      (runCycle { env with termFails := tf } cyc ids st).store
          = (runCycle env cyc ids st).store ∧
      (runCycle { env with termFails := tf } cyc ids st).fetched
          = (runCycle env cyc ids st).fetched ∧
      (runCycle { env with termFails := tf } cyc ids st).cpuData
          = (runCycle env cyc ids st).cpuData ∧
      (runCycle { env with termFails := tf } cyc ids st).watermark
          = (runCycle env cyc ids st).watermark ∧
      (runCycle { env with termFails := tf } cyc ids st).sleep
          = (runCycle env cyc ids st).sleep := by
    intro cyc ids st
    obtain ⟨h1, h2, h3, h4, h5⟩ := processInstances_termFails env tf cyc
      st.watermark (st.watermark + 3600) ids st.store [] [] [] [] []
    simp only [runCycle]
    refine ⟨?_, ?_, ?_, ?_, ?_, ?_, ?_⟩ <;> simp only [h1, h2, h3, h4, h5]
  have hloop : ∀ (fuel k : ℕ) (st : LoopState),
      runLoop { env with termFails := tf } fuel k st = runLoop env fuel k st := by
    intro fuel
    induction fuel with
    | zero => intro k st; rfl
    | succ f ih =>
      intro k st
      obtain ⟨hcr, _, hst, _, _, hwm, _⟩ := hcyc k (env.membership k) st
      simp only [runLoop]
      have hm : ({ env with termFails := tf } : Env).membership =
          env.membership := rfl
      rw [hm, hcr, hwm, hst]
      cases (env.membership k).isEmpty
      · simp only [Bool.false_eq_true, if_false]
        cases (runCycle env k (env.membership k) st).crashed
        · simp only [Bool.false_eq_true, if_false, ih]
        · simp only [if_true]
      · simp only [if_true]
  obtain ⟨h1, h2, h3, h4, h5, h6, h7⟩ := hcyc cyc ids st
  exact ⟨h1, h2, h3, h4, h5, h6, h7, hloop fuel k st⟩

/-- Inserting a row grows the length by one. -/
theorem insertRow_length (d : Row) (l : List Row) :
    (insertRow d l).length = l.length + 1 := by
  induction l with
  | nil => rfl
  | cons e es ih =>
    rw [insertRow]
    split
    · simp [ih]
    · simp

/-- Sorting preserves the number of datapoints. -/
theorem sortRows_length (l : List Row) : (sortRows l).length = l.length := by
  suffices h : ∀ acc : List Row,
      (l.foldl (fun acc d => insertRow d acc) acc).length =
        acc.length + l.length by
    simpa using h []
  induction l with
  | nil => intro acc; simp
  | cons d ds ih =>
    intro acc
    rw [List.foldl_cons, ih, insertRow_length, List.length_cons]
    omega

/-- Python `max` of `a :: l` is below `t` exactly when every element is. -/
theorem pyMax_lt_iff (a : ℚ) (l : List ℚ) (t : ℚ) :
    pyMax a l < t ↔ a < t ∧ ∀ x ∈ l, x < t := by
  induction l generalizing a with
  | nil => simp [pyMax]
  | cons b bs ih =>
    have hstep : pyMax a (b :: bs) = pyMax (max a b) bs := by
      simp [pyMax, List.foldl_cons, pyMax_step_eq_max]
    rw [hstep, ih, max_lt_iff]
    simp [List.forall_mem_cons, and_assoc]

/-- Characterization of the idleness evaluation: it fires exactly when at
least 3 values are present and every one of the last 3 is strictly below the
threshold. -/
theorem isIdle_eq_true_iff (l : List ℚ) (t : ℚ) :
    isIdle l t = true ↔ 3 ≤ l.length ∧ ∀ v ∈ lastN 3 l, v < t := by
  rcases lt_or_le l.length 3 with hl | hl
  · have h0 : l.length - 3 = 0 := by omega
    simp only [isIdle, lastN, h0, List.drop_zero]
    rw [if_neg (by omega)]
    simp only [Bool.false_eq_true, false_iff]
    intro hcon
    omega
  · have hlen : (lastN 3 l).length = 3 := by
      simp only [lastN, List.length_drop]
      omega
    rcases havs : lastN 3 l with _ | ⟨a, rest⟩
    · rw [havs] at hlen
      simp at hlen
    · rw [havs] at hlen
      simp only [isIdle, havs, hlen, if_pos]
      simp [pyMax_lt_iff, List.forall_mem_cons, hl]

/-- Characterization of the per-instance kill decision of lines 249-254: it
fires exactly when at least 3 CPU datapoints were retrieved and the last 3 by
timestamp all lie strictly below the threshold. -/
theorem cpuKill_eq_true_iff (dps : List Row) (t : ℚ) :
    cpuKill dps t = true ↔ 3 ≤ dps.length ∧
      ∀ v ∈ lastN 3 ((sortRows dps).map Row.average), v < t := by
  unfold cpuKill
  rw [isIdle_eq_true_iff]
  have hl : ((sortRows dps).map Row.average).length = dps.length := by
    rw [List.length_map, sortRows_length]
  rw [hl]

/-- A metric loop whose remaining metrics do not include the CPU metric leaves
the kill flag and the recorded CPU datapoints unchanged. -/
theorem processMetrics_no_cpu (env : Env) (inst : String) (start stop : Int)
    (ms : List String) (h : cpuMetric ∉ ms) :
    ∀ (store : List Row) (kill : Bool) (cpuD : List Row)
      (fetched : List (String × String)),
      (processMetrics env inst start stop ms store kill cpuD fetched).kill
          = kill ∧
      (processMetrics env inst start stop ms store kill cpuD fetched).cpuData
          = cpuD := by
  induction ms with
  | nil => intro store kill cpuD fetched; exact ⟨rfl, rfl⟩
  | cons m rest ih =>
    intro store kill cpuD fetched
    have hm : ¬ m = cpuMetric := by
      intro he
      exact h (he ▸ List.mem_cons_self m rest)
    have hrest : cpuMetric ∉ rest := fun hh => h (List.mem_cons_of_mem m hh)
    simp only [processMetrics]
    cases hd : fetchDatapoints env m inst start stop with
    | error e => exact ⟨rfl, rfl⟩
    | ok dps =>
      simp only [if_neg hm]
      exact ih hrest _ _ _ _

/-- One-step unfolding of the metric loop on a non-empty metric list. -/
theorem processMetrics_cons (env : Env) (inst : String) (start stop : Int)
    (m : String) (ms : List String) (store : List Row) (kill : Bool)
    (cpuD : List Row) (fetched : List (String × String)) :
    processMetrics env inst start stop (m :: ms) store kill cpuD fetched =
      match fetchDatapoints env m inst start stop with
      | .error _ => ⟨store, kill, cpuD, fetched ++ [(inst, m)], true⟩
      | .ok dps =>
        processMetrics env inst start stop ms (persistBatch store dps)
          (if m = cpuMetric then kill || cpuKill dps env.threshold else kill)
          (if m = cpuMetric then dps else cpuD)
          (fetched ++ [(inst, m)]) := rfl

/-- One-step unfolding of the metric loop when the next metric is the CPU
metric. -/
theorem processMetrics_cons_cpu (env : Env) (inst : String) (start stop : Int)
    (ms : List String) (store : List Row) (kill : Bool) (cpuD : List Row)
    (fetched : List (String × String)) :
    processMetrics env inst start stop (cpuMetric :: ms) store kill cpuD
        fetched =
      match fetchDatapoints env cpuMetric inst start stop with
      | .error _ => ⟨store, kill, cpuD, fetched ++ [(inst, cpuMetric)], true⟩
      | .ok dps =>
        processMetrics env inst start stop ms (persistBatch store dps)
          (kill || cpuKill dps env.threshold) dps
          (fetched ++ [(inst, cpuMetric)]) := by
  rw [processMetrics_cons]
  cases fetchDatapoints env cpuMetric inst start stop
  · rfl
  · simp

/-- After the full metric list (in which the CPU metric comes first and only
once), a non-crashed metric loop's kill flag equals the kill decision computed
from exactly the CPU datapoints it recorded. -/
theorem processMetrics_kill (env : Env) (inst : String) (start stop : Int)
    (store : List Row) (fetched : List (String × String))
    (hcr : (processMetrics env inst start stop listOfMetrics store false []
        fetched).crashed = false) :
    (processMetrics env inst start stop listOfMetrics store false []
        fetched).kill =
      cpuKill (processMetrics env inst start stop listOfMetrics store false []
        fetched).cpuData env.threshold := by
  have hrest : cpuMetric ∉ ["CGCloud/MemUsage", "CGCloud/DiskUsage_mnt_ephemeral",
      "CGCloud/DiskUsage_root", "AWS/EC2/NetworkIn", "AWS/EC2/NetworkOut",
      "AWS/EC2/DiskWriteOps", "AWS/EC2/DiskReadOps"] := by decide
  rw [show listOfMetrics = cpuMetric :: ["CGCloud/MemUsage",
      "CGCloud/DiskUsage_mnt_ephemeral", "CGCloud/DiskUsage_root",
      "AWS/EC2/NetworkIn", "AWS/EC2/NetworkOut", "AWS/EC2/DiskWriteOps",
      "AWS/EC2/DiskReadOps"] from rfl,
    processMetrics_cons_cpu] at hcr ⊢
  cases hd : fetchDatapoints env cpuMetric inst start stop with
  | error e =>
    rw [hd] at hcr
    simp at hcr
  | ok dps =>
    rw [hd] at hcr
    dsimp only at hcr ⊢
    simp only [Bool.false_or] at hcr ⊢
    obtain ⟨hk, hd2⟩ := processMetrics_no_cpu env inst start stop _ hrest
      (persistBatch store dps) (cpuKill dps env.threshold) dps
      (fetched ++ [(inst, cpuMetric)])
    rw [hk, hd2]

/-- Every instance for which the instance loop attempts termination has
recorded CPU datapoints whose kill decision is positive. -/
theorem processInstances_term_kill (env : Env) (cyc : ℕ) (start stop : Int) :
    ∀ (ids : List String) (store : List Row)
      (fetched : List (String × String)) (cpuData : List (String × List Row))
      (terms termF : List String),
      (∀ i ∈ terms, ∃ dps, (i, dps) ∈ cpuData ∧
        cpuKill dps env.threshold = true) →
      ∀ i ∈ (processInstances env cyc start stop ids store fetched cpuData
          terms termF).termAttempts,
        ∃ dps, (i, dps) ∈ (processInstances env cyc start stop ids store
            fetched cpuData terms termF).cpuData ∧
          cpuKill dps env.threshold = true := by
  intro ids
  induction ids with
  | nil =>
    intro store fetched cpuData terms termF hinv i hi
    exact hinv i hi
  | cons inst rest ih =>
    intro store fetched cpuData terms termF hinv i hi
    simp only [processInstances] at hi ⊢
    cases hc : (processMetrics env inst start stop listOfMetrics store false []
        fetched).crashed
    · simp only [hc, Bool.false_eq_true, if_false] at hi ⊢
      refine ih _ _ _ _ _ ?_ i hi
      intro j hj
      rcases hkill : (processMetrics env inst start stop listOfMetrics store
          false [] fetched).kill
      · rw [hkill] at hj
        simp only [if_neg (Bool.false_ne_true)] at hj
        obtain ⟨dps, hdps, hk⟩ := hinv j hj
        exact ⟨dps, List.mem_append_left _ hdps, hk⟩
      · rw [hkill] at hj
        simp only [if_pos rfl] at hj
        rcases List.mem_append.mp hj with hj1 | hj2
        · obtain ⟨dps, hdps, hk⟩ := hinv j hj1
          exact ⟨dps, List.mem_append_left _ hdps, hk⟩
        · have hjeq : j = inst := List.mem_singleton.mp hj2
          subst hjeq
          refine ⟨(processMetrics env j start stop listOfMetrics store false []
              fetched).cpuData, List.mem_append_right _ (List.mem_singleton.mpr
              rfl), ?_⟩
          rw [← processMetrics_kill env j start stop store fetched hc, hkill]
    · simp only [hc, if_true] at hi ⊢
      exact hinv i hi

/-- Claim C10 (amended): an instance is flagged for termination in a cycle
only if at least 3 CPU-utilization datapoints were retrieved for it in that
cycle's fetch window and the last 3 of them by timestamp are all strictly
below the threshold; in particular an instance whose CPU fetch failed or
returned fewer than 3 datapoints is never terminated in that cycle. -/
theorem claim_c10 (env : Env) (cyc : ℕ) (ids : List String) (st : LoopState)
    (inst : String)
    (h : inst ∈ (runCycle env cyc ids st).termAttempts) :
    ∃ dps, (inst, dps) ∈ (runCycle env cyc ids st).cpuData ∧
      cpuKill dps env.threshold = true ∧ 3 ≤ dps.length ∧
      ∀ v ∈ lastN 3 ((sortRows dps).map Row.average), v < env.threshold := by
  simp only [runCycle] at h ⊢
  obtain ⟨dps, hmem, hkill⟩ := processInstances_term_kill env cyc st.watermark
    (st.watermark + 3600) ids st.store [] [] [] []
    (fun i hi => absurd hi (List.not_mem_nil i)) inst h
  obtain ⟨hlen, hvals⟩ := (cpuKill_eq_true_iff dps env.threshold).mp hkill
  exact ⟨dps, hmem, hkill, hlen, hvals⟩

/-- An environment whose CPU fetches return four datapoints, all below the
threshold, with distinct timestamps. -/
def envC10 : Env :=
  { fetch := fun m _ _ _ _ =>
      if m = cpuMetric then
        .ok [⟨mkRat 1 10, 0⟩, ⟨mkRat 1 10, 300⟩, ⟨mkRat 1 10, 600⟩,
             ⟨mkRat 1 10, 900⟩]
      else .ok []
    termFails := fun _ _ => false
    membership := fun _ => ["i-A"]
    elapsed := fun _ => 0
    threshold := mkRat 1 2 }

/-- Counterexample to C10 as stated: instance `i-A` has termination attempted
in a cycle in which 4 (not exactly 3) CPU datapoints were retrieved for it —
the code checks `len(averages) == 3` only after slicing the last 3 of however
many datapoints arrived. -/
theorem claim_c10_counterexample :
    (runCycle envC10 0 ["i-A"] ⟨0, []⟩).termAttempts = ["i-A"] ∧
    ((runCycle envC10 0 ["i-A"] ⟨0, []⟩).cpuData.map
      (fun p => (p.1, p.2.length))) = [("i-A", 4)] ∧
    (4 : ℕ) ≠ 3 :=
  ⟨rfl, rfl, by decide⟩

/-- Witness for C10: the terminated instance `i-A` indeed has recorded CPU
datapoints, at least 3 of them, whose last 3 are below the threshold. -/
theorem claim_c10_witness :
    ∃ dps, ("i-A", dps) ∈ (runCycle envC10 0 ["i-A"] ⟨0, []⟩).cpuData ∧
      cpuKill dps envC10.threshold = true ∧ 3 ≤ dps.length ∧
      ∀ v ∈ lastN 3 ((sortRows dps).map Row.average), v < envC10.threshold :=
  claim_c10 envC10 0 ["i-A"] ⟨0, []⟩ "i-A" (by decide)

end ScalingTests
